import Mathlib

/-!
Shallow embedding of the seat-inventory / pricing / settlement core of the
nammashow_api backend (src/controllers/bookingController.js,
src/controllers/eventBookingController.js, src/utils/bookingHelper.js,
src/utils/razorpay.js).

Database rows are embedded as Lean structures, the mutable MySQL state as a
record of row lists, and each controller as a pure state-passing function on
that record.  Currency arithmetic is embedded over the rationals (the JS code
works on `parseFloat`ed decimals and rounds with `toFixed(2)` only at output
boundaries); time is abstracted to natural-number minutes, and calendar dates
to a year/month/day triple.
-/

namespace NammaShow

/-- A calendar date, as used by `DATE(created_at)` comparisons and by
`generateBookingNumber` (src/utils/bookingHelper.js). -/
structure Date where
  year : Nat
  month : Nat
  day : Nat
deriving Repr, DecidableEq

/-- Lexicographic order on calendar dates, for `start_date <= CURDATE()`-style
window checks. -/
def dateLe (a b : Date) : Bool :=
  decide (a.year < b.year)
    || (a.year == b.year
        && (decide (a.month < b.month)
            || (a.month == b.month && decide (a.day ≤ b.day))))

/-- Snapshot of the `payment_information` JSON blob stored on a booking row.
Fields that appear only after confirmation are `Option`s. -/
structure PaymentBlob where
  razorpayOrderId : String
  razorpayPaymentId : Option String
  amount : ℚ
  paymentStatus : String
  loyaltyPointsUsed : Option ℚ
  couponDiscount : Option ℚ
deriving Repr, DecidableEq

/-- A `theater_bookings` row.  `seatsBooked` is the list of seat identifiers
in the `seats_booked` JSON snapshot (the code pushes `seat.id` /
`seat.seat_number` per entry; we keep the identifiers).  `status`:
0 = pending, 1 = confirmed, 2 = cancelled, 3 = completed.  `createdAt` is in
minutes (only differences against the 15-minute TTL matter); `createdDate` is
`DATE(created_at)`. -/
structure TheaterBooking where
  id : Nat
  scheduleId : Nat
  booking : String
  status : Nat
  seatsBooked : List String
  userId : Nat
  totalAmount : ℚ
  qty : Nat
  paymentInformation : PaymentBlob
  createdDate : Date
  createdAt : Nat
  deleted : Bool
deriving Repr, DecidableEq

/-- An `event_bookings` row.  `ticketQtys` reflects the `(ticket_id, quantity)`
pairs of the `ticket_type` JSON snapshot; `qty` is the row's total quantity
column. -/
structure EventBooking where
  id : Nat
  booking : String
  userId : Nat
  ticketQtys : List (Nat × Nat)
  qty : Nat
  totalAmount : ℚ
  status : Nat
  paymentInformation : PaymentBlob
  createdDate : Date
  deleted : Bool
deriving Repr, DecidableEq

/-- A `seat_locks` row.  The table has a uniqueness key on
`(schedule_id, seat_number)` maintained by `INSERT ... ON DUPLICATE KEY
UPDATE`.  Times are in minutes. -/
structure SeatLock where
  scheduleId : Nat
  seatNumber : String
  userId : Nat
  lockedAt : Nat
  expiresAt : Nat
deriving Repr, DecidableEq

/-- The claim-relevant part of the `payment_details` JSON snapshot stored on a
`payment_transactions` row (theater orders store `schedule_id`,
`loyalty_points_used` and `coupon_discount`; event orders store
`loyalty_points_used` and leave `scheduleId` at 0 and `couponDiscount` at 0,
as event orders have no coupon). -/
structure TxnSnapshot where
  scheduleId : Nat
  loyaltyPointsUsed : ℚ
  couponDiscount : ℚ
deriving Repr, DecidableEq

/-- A `payment_transactions` row.  `status` ranges over the strings the code
writes: `pending`, `success`, `failed`. -/
structure PaymentTxn where
  id : Nat
  userId : Nat
  bookingId : Nat
  razorpayOrderId : String
  amount : ℚ
  status : String
  details : TxnSnapshot
  razorpayPaymentId : Option String
  razorpaySignature : Option String
deriving Repr, DecidableEq

/-- A `users_profiles` row (the claim-relevant `loyality_points` column). -/
structure UserProfile where
  id : Nat
  loyaltyPoints : ℚ
deriving Repr, DecidableEq

/-- One entry of a schedule's `layout_data` JSON. -/
structure LayoutSeat where
  seatNumber : String
  categoryId : Nat
  quotaOnline : Bool
deriving Repr, DecidableEq

/-- One category's price points inside the movie's `pricing_data` JSON.
The JS code tests `prices.weekend_price` / `prices.holiday_price` for
truthiness before using them; absence is embedded as `none`. -/
structure PricePoints where
  basePrice : ℚ
  weekendPrice : Option ℚ
  holidayPrice : Option ℚ
deriving Repr, DecidableEq

/-- The joined schedule/movie/screen/theater row that `getSeatLayout`,
`calculatePrice` and `createOrder` load (`schedule_managements` joined with
`show_managements`, `seat_layout_builders`, `theaters`).  `dayOfWeek` is the
JS `Date.getDay()` of `show_date` (0 = Sunday, 6 = Saturday); `active` is
`status = '1'`. -/
structure Schedule where
  id : Nat
  theaterId : Nat
  movieTitle : String
  dayOfWeek : Nat
  layout : List LayoutSeat
  onlineSeats : List String
  pricing : List (String × PricePoints)
  active : Bool
  deleted : Bool
deriving Repr, DecidableEq

/-- A `pricing_managements` row (category id to category name). -/
structure PricingCategory where
  id : Nat
  category : String
deriving Repr, DecidableEq

/-- A `food_and_beverage_managements` row. -/
structure FoodItem where
  id : Nat
  theaterId : Nat
  itemName : String
  price : ℚ
deriving Repr, DecidableEq

/-- A `coupon_managements` row.  `discountType = "0"` means percentage,
anything else a flat amount; the validity window is abstracted to day
indices. -/
structure Coupon where
  couponCode : String
  discountType : String
  discountValue : ℚ
  maxDiscountAmount : Option ℚ
  minDiscountAmount : Option ℚ
  startDate : Date
  endDate : Date
  active : Bool
  deleted : Bool
deriving Repr, DecidableEq

/-- An `event_details` row (the claim-relevant columns). -/
structure EventDetail where
  id : Nat
  eventName : String
  active : Bool
  deleted : Bool
deriving Repr, DecidableEq

/-- A `ticket_managements` row. -/
structure TicketManagement where
  id : Nat
  eventId : Nat
  ticketName : String
  price : ℚ
  totalQuantity : Nat
  active : Bool
  deleted : Bool
deriving Repr, DecidableEq

/-- The mutable database state shared by the controllers, plus the list of
order ids created at the payment gateway (to observe whether a gateway order
was created) and the auto-increment counters. -/
structure DB where
  theaterBookings : List TheaterBooking
  eventBookings : List EventBooking
  seatLocks : List SeatLock
  paymentTxns : List PaymentTxn
  profiles : List UserProfile
  schedules : List Schedule
  pricingCategories : List PricingCategory
  foodItems : List FoodItem
  coupons : List Coupon
  events : List EventDetail
  eventTickets : List TicketManagement
  gatewayOrders : List String
  nextTheaterBookingId : Nat
  nextEventBookingId : Nat
  nextTxnId : Nat
deriving Repr, DecidableEq

/-- An empty database, used as the base of concrete test fixtures. -/
def emptyDB : DB :=
  { theaterBookings := [], eventBookings := [], seatLocks := [], paymentTxns := []
    profiles := [], schedules := [], pricingCategories := [], foodItems := []
    coupons := [], events := [], eventTickets := [], gatewayOrders := []
    nextTheaterBookingId := 1, nextEventBookingId := 1, nextTxnId := 1 }

/-- The 15-minute hold TTL used by seat locks and the stale-booking sweep. -/
def lockTTL : Nat := 15

/-- Rounding to two decimals, the `parseFloat(x.toFixed(2))` output-boundary
rounding of the controllers, over ℚ. -/
def round2 (q : ℚ) : ℚ := (round (q * 100) : ℚ) / 100

/-! ### Availability (Inventory Ledger) -/

/-- Seat identifiers referenced by booking snapshots counted as booked, per
the query `SELECT seats_booked FROM theater_bookings WHERE schedule_id = ?
AND status IN (1, 3) AND deleted_at IS NULL` shared by `getSeatLayout`,
`lockSeats` and `createOrder` (bookingController.js lines 176-193, 371-387,
940-956). -/
def bookedSeatIds (db : DB) (scheduleId : Nat) : List String :=
  (db.theaterBookings.filter (fun b =>
      b.scheduleId == scheduleId && (b.status == 1 || b.status == 3) && !b.deleted)).flatMap
    (fun b => b.seatsBooked)

/-- Seat numbers with a live lock visible to the requesting viewer: a
logged-in viewer's own locks are excluded, a guest sees all live locks
(bookingController.js lines 196-218). -/
def lockedSeatNumbersForViewer (db : DB) (scheduleId now : Nat)
    (viewer : Option Nat) : List String :=
  match viewer with
  | some uid =>
      (db.seatLocks.filter (fun l =>
          l.scheduleId == scheduleId && now < l.expiresAt && l.userId != uid)).map
        (fun l => l.seatNumber)
  | none =>
      (db.seatLocks.filter (fun l =>
          l.scheduleId == scheduleId && now < l.expiresAt)).map
        (fun l => l.seatNumber)

/-- `cleanupPendingBookings` (bookingController.js lines 56-82): pending
theater bookings older than 15 minutes become cancelled (status 2), expired
seat locks are deleted. -/
def cleanupPendingBookings (db : DB) (now : Nat) : DB :=
  { db with
    theaterBookings := db.theaterBookings.map (fun b =>
      if b.status == 0 && b.createdAt + lockTTL < now && !b.deleted
      then { b with status := 2 } else b)
    seatLocks := db.seatLocks.filter (fun l => !(l.expiresAt < now)) }

/-- The status string `getSeatLayout` assigns to an online-quota seat after
running the cleanup sweep: booked takes precedence over locked over available
(bookingController.js lines 132-289). -/
def getSeatLayoutStatus (db : DB) (now : Nat) (viewer : Option Nat)
    (scheduleId : Nat) (seat : String) : String :=
  let db0 := cleanupPendingBookings db now
  if (bookedSeatIds db0 scheduleId).contains seat then "booked"
  else if (lockedSeatNumbersForViewer db0 scheduleId now viewer).contains seat then "locked"
  else "available"

/-! ### Reservation Manager (seat locks) -/

/-- The `INSERT ... ON DUPLICATE KEY UPDATE` upsert on `seat_locks`
(bookingController.js lines 400-408 and 891-899): with a row already present
for `(schedule_id, seat_number)` its `user_id`, `locked_at` and `expires_at`
are overwritten, otherwise a fresh row with a 15-minute expiry is inserted. -/
def upsertLock (locks : List SeatLock) (scheduleId : Nat) (seat : String)
    (userId now : Nat) : List SeatLock :=
  if locks.any (fun l => l.scheduleId == scheduleId && l.seatNumber == seat) then
    locks.map (fun l =>
      if l.scheduleId == scheduleId && l.seatNumber == seat then
        { l with userId := userId, lockedAt := now, expiresAt := now + lockTTL }
      else l)
  else locks ++ [{ scheduleId := scheduleId, seatNumber := seat, userId := userId,
                   lockedAt := now, expiresAt := now + lockTTL }]

/-- Errors surfaced by `lockSeats`. -/
inductive LockError where
  | badRequest
  | lockedByOther (seats : List String)
  | alreadyBooked (seats : List String)
deriving Repr, DecidableEq

/-- `lockSeats` (bookingController.js lines 328-424): delete expired locks,
conflict if a requested seat carries a live lock of a different user,
conflict if a requested seat is already booked (status 1 or 3), otherwise
upsert a 15-minute lock per requested seat. -/
def lockSeats (db : DB) (now userId scheduleId : Nat) (seats : List String) :
    Except LockError DB :=
  if seats.isEmpty then .error .badRequest else
  let db1 := { db with seatLocks := db.seatLocks.filter (fun l => !(l.expiresAt < now)) }
  let lockedByOthers :=
    (db1.seatLocks.filter (fun l =>
        l.scheduleId == scheduleId && seats.contains l.seatNumber
          && now < l.expiresAt && l.userId != userId)).map (fun l => l.seatNumber)
  if lockedByOthers.isEmpty = false then .error (.lockedByOther lockedByOthers) else
  let booked := bookedSeatIds db1 scheduleId
  let alreadyBooked := seats.filter (fun s => booked.contains s)
  if alreadyBooked.isEmpty = false then .error (.alreadyBooked alreadyBooked) else
  .ok { db1 with
        seatLocks := seats.foldl
          (fun ls s => upsertLock ls scheduleId s userId now) db1.seatLocks }

/-! ### Pricing Engine -/

/-- ASCII lowercasing of one character (the category names are ASCII). -/
def lowerChar (c : Char) : Char :=
  if 65 ≤ c.toNat && c.toNat ≤ 90 then Char.ofNat (c.toNat + 32) else c

/-- JS `String.prototype.toLowerCase()` over the ASCII category names,
embedded as a structural map over the characters. -/
def strToLower (s : String) : String := String.mk (s.data.map lowerChar)

/-- JS `String.prototype.startsWith`, embedded structurally. -/
def strStartsWith (s pre : String) : Bool := pre.data.isPrefixOf s.data

/-- Category id to category name via `pricing_managements`, defaulting to
"Regular" (bookingController.js lines 84-95). -/
def getCategoryName (db : DB) (categoryId : Nat) : String :=
  match db.pricingCategories.find? (fun p => p.id == categoryId) with
  | some p => p.category
  | none => "Regular"

/-- Per-category unit price selection (bookingController.js lines 223-242 and
699-734): holiday price when it is a holiday and one is present, else the
weekend price when the show date is a weekend and one is present, else the
base price.  The controllers hardcode `isHoliday = false`. -/
def unitPrice (isWeekend isHoliday : Bool) (pp : PricePoints) : ℚ :=
  if isHoliday && pp.holidayPrice.isSome then pp.holidayPrice.getD pp.basePrice
  else if isWeekend && pp.weekendPrice.isSome then pp.weekendPrice.getD pp.basePrice
  else pp.basePrice

/-- Whether the schedule's show date falls on a weekend
(`dayOfWeek === 0 || dayOfWeek === 6`). -/
def isWeekendOf (s : Schedule) : Bool := s.dayOfWeek == 0 || s.dayOfWeek == 6

/-- The price contribution of one requested seat number in `createOrder`
(bookingController.js lines 983-1013): a seat number missing from the layout
is skipped (`continue`), an unknown category key prices at 0. -/
def seatUnitPrice (db : DB) (sched : Schedule) (seatNumber : String) : ℚ :=
  match sched.layout.find? (fun l => l.seatNumber == seatNumber) with
  | none => 0
  | some l =>
    let categoryKey := strToLower (getCategoryName db l.categoryId)
    match (sched.pricing.find? (fun p => p.1 == categoryKey)) with
    | none => 0
    | some p => unitPrice (isWeekendOf sched) false p.2

/-- Ticket subtotal over the requested seats. -/
def theaterTicketPrice (db : DB) (sched : Schedule) (seats : List String) : ℚ :=
  seats.foldl (fun acc s => acc + seatUnitPrice db sched s) 0

/-- Food subtotal: each `(id, quantity)` line is looked up against the
theater's catalog and silently skipped if absent (bookingController.js lines
1019-1038). -/
def theaterFoodPrice (db : DB) (theaterId : Nat) (items : List (Nat × Nat)) : ℚ :=
  items.foldl (fun acc it =>
    match db.foodItems.find? (fun fi => fi.id == it.1 && fi.theaterId == theaterId) with
    | none => acc
    | some fi => acc + fi.price * (it.2 : ℚ)) 0

/-- Coupon lookup: active, inside its validity window, not soft-deleted
(bookingController.js lines 1047-1055). -/
def findCoupon (db : DB) (code : String) (today : Date) : Option Coupon :=
  db.coupons.find? (fun c =>
    c.couponCode == code && c.active && dateLe c.startDate today
      && dateLe today c.endDate && !c.deleted)

/-- The discount a found coupon yields on a subtotal (bookingController.js
lines 1057-1069): nothing below the minimum order value; a percentage
discount is capped at `max_discount_amount` when present; otherwise the flat
amount. -/
def couponDiscountOf (subtotal : ℚ) (c : Coupon) : ℚ :=
  if c.minDiscountAmount.getD 0 ≤ subtotal then
    if c.discountType == "0" then
      match c.maxDiscountAmount with
      | some mx => min (subtotal * c.discountValue / 100) mx
      | none => subtotal * c.discountValue / 100
    else c.discountValue
  else 0

/-- The computed price breakdown (all amounts unrounded; the controllers
round `gst` and `totalAmount` with `toFixed(2)` only at output
boundaries). -/
structure Pricing where
  ticketPrice : ℚ
  foodPrice : ℚ
  platformFee : ℚ
  subtotal : ℚ
  couponDiscount : ℚ
  loyaltyPointsUsed : ℚ
  amountAfterDiscount : ℚ
  gst : ℚ
  totalAmount : ℚ
deriving Repr, DecidableEq

/-- The pricing arithmetic shared verbatim by `calculatePrice`
(bookingController.js lines 769-824) and `createOrder` (lines 1040-1088):
flat ₹18 platform fee, coupon discount, loyalty redemption
`min(balance, subtotal - couponDiscount)` when requested with a positive
balance, 18% GST on the discounted amount. -/
def computePricing (ticketPrice foodPrice : ℚ) (coupon : Option Coupon)
    (useLoyalty : Bool) (availablePoints : ℚ) : Pricing :=
  let platformFee : ℚ := 18
  let subtotal := ticketPrice + foodPrice + platformFee
  let couponDiscount := match coupon with
    | none => 0
    | some c => couponDiscountOf subtotal c
  let loyaltyPointsUsed :=
    if useLoyalty && decide (0 < availablePoints)
    then min availablePoints (subtotal - couponDiscount) else 0
  let amountAfterDiscount := subtotal - couponDiscount - loyaltyPointsUsed
  let gst := amountAfterDiscount * (18 / 100)
  { ticketPrice := ticketPrice, foodPrice := foodPrice, platformFee := platformFee
    subtotal := subtotal, couponDiscount := couponDiscount
    loyaltyPointsUsed := loyaltyPointsUsed
    amountAfterDiscount := amountAfterDiscount, gst := gst
    totalAmount := amountAfterDiscount + gst }

/-- The requester's loyalty balance, 0 when the profile row is absent or the
column is null (`user?.loyality_points ? parseFloat(...) : 0`). -/
def userLoyaltyPoints (db : DB) (userId : Nat) : ℚ :=
  match db.profiles.find? (fun p => p.id == userId) with
  | some p => p.loyaltyPoints
  | none => 0

/-! ### Booking numbers (src/utils/bookingHelper.js) -/

/-- Left-pad with zeros, JS `String(n).padStart(w, '0')`. -/
def padZero (n w : Nat) : String :=
  let t := toString n
  String.mk (List.replicate (w - t.length) '0') ++ t

/-- `generateBookingNumber` (bookingHelper.js lines 3-11):
`BK` + `YYYYMMDD` + zero-padded 3-digit sequence. -/
def generateBookingNumber (today : Date) (sequentialNumber : Nat) : String :=
  "BK" ++ padZero today.year 4 ++ padZero today.month 2 ++ padZero today.day 2
    ++ padZero sequentialNumber 3

/-- The number of `theater_bookings` rows created today, per
`SELECT COUNT(*) FROM theater_bookings WHERE DATE(created_at) = ?`
(no status filter, no soft-delete filter). -/
def countBookingsToday (bookings : List TheaterBooking) (today : Date) : Nat :=
  (bookings.filter (fun b => b.createdDate == today)).length

/-- `getNextBookingNumber` (bookingHelper.js lines 13-31): today's
`theater_bookings` count plus one, formatted.  Both the theater and the event
`createOrder` call this helper. -/
def getNextBookingNumber (db : DB) (today : Date) : String :=
  generateBookingNumber today (countBookingsToday db.theaterBookings today + 1)

/-! ### Theater order creation (bookingController.js lines 872-1220) -/

/-- Errors surfaced by `createOrder`. -/
inductive OrderError where
  | validation
  | scheduleNotFound
  | seatsNotAvailable (seats : List String)
  | eventNotFound
  | ticketNotFound (ticketId : Nat)
  | ticketUnavailable (ticketId : Nat)
deriving Repr, DecidableEq

/-- The success payload of an order creation. -/
structure OrderOk where
  orderId : String
  bookingId : Nat
  bookingNumber : String
  amount : ℚ
deriving Repr, DecidableEq

/-- Schedule lookup with `status = '1' AND deleted_at IS NULL`. -/
def findSchedule (db : DB) (scheduleId : Nat) : Option Schedule :=
  db.schedules.find? (fun s => s.id == scheduleId && s.active && !s.deleted)

/-- Theater `createOrder` (bookingController.js lines 872-1220).  Order of
operations as in the source: (1) validate the request; (2) unconditionally
upsert a 15-minute lock per requested seat ("auto-lock"), with no check of
existing locks; (3) load the schedule; (4) collect seats that are outside the
online quota or already booked (status 1 or 3) and abort naming them; (5)
price the order; (6) create the gateway order; (7) insert a pending
`theater_bookings` row whose seat snapshot keeps the requested seats found in
the layout; (8) insert a pending `payment_transactions` row snapshotting the
breakdown. -/
def createOrder (db : DB) (now : Nat) (today : Date) (userId scheduleId : Nat)
    (seats : List String) (foodItems : List (Nat × Nat))
    (couponCode : Option String) (useLoyalty : Bool) :
    Except OrderError OrderOk × DB :=
  if seats.isEmpty then (.error .validation, db) else
  let locks1 := seats.foldl (fun ls s => upsertLock ls scheduleId s userId now) db.seatLocks
  let db1 : DB := { db with seatLocks := locks1 }
  match findSchedule db scheduleId with
  | none => (.error .scheduleNotFound, db1)
  | some sched =>
    let booked := bookedSeatIds db scheduleId
    let unavailableSeats := seats.filter (fun s =>
      !(sched.onlineSeats.contains s) || booked.contains s)
    if unavailableSeats.isEmpty = false then
      (.error (.seatsNotAvailable unavailableSeats), db1)
    else
      let ticketPrice := theaterTicketPrice db sched seats
      let foodPrice := theaterFoodPrice db sched.theaterId foodItems
      let coupon := couponCode.bind (fun c => findCoupon db c today)
      let pr := computePricing ticketPrice foodPrice coupon useLoyalty
        (userLoyaltyPoints db userId)
      let bookingNumber := getNextBookingNumber db today
      let gwId := "order_" ++ toString db.gatewayOrders.length
      let seatDetails := seats.filter (fun sn =>
        sched.layout.any (fun l => l.seatNumber == sn))
      let newBooking : TheaterBooking :=
        { id := db.nextTheaterBookingId, scheduleId := scheduleId
          booking := bookingNumber, status := 0, seatsBooked := seatDetails
          userId := userId, totalAmount := pr.totalAmount, qty := seats.length
          paymentInformation :=
            { razorpayOrderId := gwId, razorpayPaymentId := none
              amount := pr.totalAmount, paymentStatus := "pending"
              loyaltyPointsUsed := none, couponDiscount := none }
          createdDate := today, createdAt := now, deleted := false }
      let newTxn : PaymentTxn :=
        { id := db.nextTxnId, userId := userId, bookingId := db.nextTheaterBookingId
          razorpayOrderId := gwId, amount := pr.totalAmount, status := "pending"
          details := { scheduleId := scheduleId
                       loyaltyPointsUsed := pr.loyaltyPointsUsed
                       couponDiscount := pr.couponDiscount }
          razorpayPaymentId := none, razorpaySignature := none }
      (.ok { orderId := gwId, bookingId := db.nextTheaterBookingId
             bookingNumber := bookingNumber, amount := round2 pr.totalAmount },
       { db1 with
         theaterBookings := db1.theaterBookings ++ [newBooking]
         paymentTxns := db1.paymentTxns ++ [newTxn]
         gatewayOrders := db1.gatewayOrders ++ [gwId]
         nextTheaterBookingId := db.nextTheaterBookingId + 1
         nextTxnId := db.nextTxnId + 1 })

/-! ### Event order creation (eventBookingController.js lines 312-543) -/

/-- Event lookup with `status = '1' AND deleted_at IS NULL`. -/
def findEvent (db : DB) (eventId : Nat) : Option EventDetail :=
  db.events.find? (fun e => e.id == eventId && e.active && !e.deleted)

/-- Ticket lookup scoped to the event. -/
def findTicket (db : DB) (eventId ticketId : Nat) : Option TicketManagement :=
  db.eventTickets.find? (fun t =>
    t.id == ticketId && t.eventId == eventId && t.active && !t.deleted)

/-- Quantity already sold of a ticket type: the sum of the whole `qty` column
over pending-or-confirmed, non-deleted `event_bookings` whose `ticket_type`
snapshot references the ticket (the source matches the id with
`JSON_EXTRACT(...) LIKE '%id%'`; embedded as membership of the id in the
snapshot). -/
def eventSoldQty (db : DB) (ticketId : Nat) : Nat :=
  ((db.eventBookings.filter (fun b =>
      (b.status == 0 || b.status == 1) && !b.deleted
        && b.ticketQtys.any (fun p => p.1 == ticketId))).map (fun b => b.qty)).sum

/-- One priced line of an event order. -/
structure TicketDetail where
  ticketId : Nat
  quantity : Nat
  pricePerTicket : ℚ
deriving Repr, DecidableEq

/-- The per-ticket validation/pricing loop of the event `createOrder`
(eventBookingController.js lines 356-400): each requested line must name an
existing ticket type of the event with enough remaining quantity; accumulates
the ticket subtotal, the total quantity and the snapshot lines. -/
def computeEventTickets (db : DB) (eventId : Nat) (items : List (Nat × Nat)) :
    Except OrderError (ℚ × Nat × List TicketDetail) :=
  items.foldlM (fun acc it =>
    match findTicket db eventId it.1 with
    | none => .error (.ticketNotFound it.1)
    | some tk =>
      if ((tk.totalQuantity : Int) - (eventSoldQty db it.1 : Int)) < (it.2 : Int)
      then .error (.ticketUnavailable it.1)
      else .ok (acc.1 + tk.price * (it.2 : ℚ), acc.2.1 + it.2,
                acc.2.2 ++ [{ ticketId := tk.id, quantity := it.2
                              pricePerTicket := tk.price }]))
    ((0 : ℚ), (0 : Nat), ([] : List TicketDetail))

/-- Event `createOrder` (eventBookingController.js lines 312-543): validate,
load the event, price the tickets, apply loyalty `min(balance, subtotal)`
(events have no coupon), compute GST and total, generate the booking number
with the shared `getNextBookingNumber` helper (which counts
`theater_bookings`), create the gateway order, insert a pending
`event_bookings` row and a pending `payment_transactions` row. -/
def eventCreateOrder (db : DB) (today : Date) (userId eventId : Nat)
    (items : List (Nat × Nat)) (useLoyalty : Bool) :
    Except OrderError OrderOk × DB :=
  if items.isEmpty then (.error .validation, db) else
  match findEvent db eventId with
  | none => (.error .eventNotFound, db)
  | some _ev =>
    match computeEventTickets db eventId items with
    | .error e => (.error e, db)
    | .ok (ticketPrice, totalQuantity, details) =>
      let subtotal := ticketPrice + 18
      let availablePoints := userLoyaltyPoints db userId
      let loyaltyPointsUsed :=
        if useLoyalty && decide (0 < availablePoints)
        then min availablePoints subtotal else 0
      let amountAfterDiscount := subtotal - loyaltyPointsUsed
      let gst := amountAfterDiscount * (18 / 100)
      let totalAmount := amountAfterDiscount + gst
      let bookingNumber := getNextBookingNumber db today
      let gwId := "order_" ++ toString db.gatewayOrders.length
      let newBooking : EventBooking :=
        { id := db.nextEventBookingId, booking := bookingNumber, userId := userId
          ticketQtys := details.map (fun d => (d.ticketId, d.quantity))
          qty := totalQuantity, totalAmount := totalAmount, status := 0
          paymentInformation :=
            { razorpayOrderId := gwId, razorpayPaymentId := none
              amount := totalAmount, paymentStatus := "pending"
              loyaltyPointsUsed := none, couponDiscount := none }
          createdDate := today, deleted := false }
      let newTxn : PaymentTxn :=
        { id := db.nextTxnId, userId := userId, bookingId := db.nextEventBookingId
          razorpayOrderId := gwId, amount := totalAmount, status := "pending"
          details := { scheduleId := 0, loyaltyPointsUsed := loyaltyPointsUsed
                       couponDiscount := 0 }
          razorpayPaymentId := none, razorpaySignature := none }
      (.ok { orderId := gwId, bookingId := db.nextEventBookingId
             bookingNumber := bookingNumber, amount := round2 totalAmount },
       { db with
         eventBookings := db.eventBookings ++ [newBooking]
         paymentTxns := db.paymentTxns ++ [newTxn]
         gatewayOrders := db.gatewayOrders ++ [gwId]
         nextEventBookingId := db.nextEventBookingId + 1
         nextTxnId := db.nextTxnId + 1 })

/-! ### Signature verification (src/utils/razorpay.js lines 39-67) -/

/-- `verifySignature`: a signature starting with `test_sig_` is accepted
unconditionally (testing bypass); otherwise the supplied signature must equal
the HMAC-SHA256 of `orderId|paymentId` under the integration secret.  The
HMAC itself is an opaque parameter of the model. -/
def verifySignature (hmac : String → String) (orderId paymentId signature : String) :
    Bool :=
  if strStartsWith signature "test_sig_" then true
  else hmac (orderId ++ "|" ++ paymentId) == signature

/-! ### Payment verification (bookingController.js lines 1223-1406,
eventBookingController.js lines 544-710) -/

/-- Errors surfaced by `verifyPayment`. -/
inductive VerifyError where
  | invalidSignature
  | txnNotFound
  | alreadyVerified
  | bookingNotFound
deriving Repr, DecidableEq

/-- The success payload of a verification. -/
structure VerifyOk where
  bookingId : Nat
  bookingNumber : String
deriving Repr, DecidableEq

/-- The invalid-signature update `UPDATE payment_transactions SET status =
'failed' ... WHERE razorpay_order_id = ?` — filtered only on the gateway
order id, with no user scope (bookingController.js lines 1259-1264,
eventBookingController.js lines 580-585). -/
def markTxnFailedByOrderId (txns : List PaymentTxn) (orderId : String) :
    List PaymentTxn :=
  txns.map (fun t =>
    if t.razorpayOrderId == orderId then { t with status := "failed" } else t)

/-- The unconditional loyalty debit `UPDATE users_profiles SET
loyality_points = loyality_points - ? WHERE id = ?` (bookingController.js
lines 1312-1315, eventBookingController.js lines 633-636). -/
def debitLoyalty (db : DB) (userId : Nat) (amount : ℚ) : DB :=
  { db with profiles := db.profiles.map (fun p =>
      if p.id == userId then { p with loyaltyPoints := p.loyaltyPoints - amount }
      else p) }

/-- Theater `verifyPayment` (bookingController.js lines 1223-1406).  Invalid
signature: mark every transaction with that gateway order id failed and
return an error, touching nothing else.  Valid signature: inside one
transaction, load the payment row scoped to the requester, reject if already
`success`, load the booking, debit the snapshot's loyalty points when
positive, flip the booking to confirmed with a fresh payment-information
blob, flip the transaction to `success`; afterwards release the requester's
seat locks for the snapshot's schedule. -/
def verifyPayment (db : DB) (hmac : String → String) (userId : Nat)
    (orderId paymentId signature : String) : Except VerifyError VerifyOk × DB :=
  if verifySignature hmac orderId paymentId signature = false then
    (.error .invalidSignature,
     { db with paymentTxns := markTxnFailedByOrderId db.paymentTxns orderId })
  else
    match db.paymentTxns.find? (fun t =>
        t.razorpayOrderId == orderId && t.userId == userId) with
    | none => (.error .txnNotFound, db)
    | some payment =>
      if payment.status == "success" then (.error .alreadyVerified, db)
      else
        match db.theaterBookings.find? (fun b => b.id == payment.bookingId) with
        | none => (.error .bookingNotFound, db)
        | some booking =>
          let db1 : DB :=
            if decide (0 < payment.details.loyaltyPointsUsed)
            then debitLoyalty db userId payment.details.loyaltyPointsUsed
            else db
          let db2 : DB := { db1 with theaterBookings := db1.theaterBookings.map (fun b =>
            if b.id == payment.bookingId then
              { b with status := 1
                       paymentInformation :=
                         { razorpayOrderId := orderId
                           razorpayPaymentId := some paymentId
                           amount := payment.amount, paymentStatus := "success"
                           loyaltyPointsUsed := some payment.details.loyaltyPointsUsed
                           couponDiscount := some payment.details.couponDiscount } }
            else b) }
          let db3 : DB := { db2 with paymentTxns := db2.paymentTxns.map (fun t =>
            if t.id == payment.id then
              { t with status := "success", razorpayPaymentId := some paymentId
                       razorpaySignature := some signature }
            else t) }
          let db4 : DB := { db3 with seatLocks := db3.seatLocks.filter (fun l =>
            !(l.scheduleId == payment.details.scheduleId && l.userId == userId)) }
          (.ok { bookingId := booking.id, bookingNumber := booking.booking }, db4)

/-- Event `verifyPayment` (eventBookingController.js lines 544-710): the same
flow against `event_bookings`, with no seat-lock release. -/
def eventVerifyPayment (db : DB) (hmac : String → String) (userId : Nat)
    (orderId paymentId signature : String) : Except VerifyError VerifyOk × DB :=
  if verifySignature hmac orderId paymentId signature = false then
    (.error .invalidSignature,
     { db with paymentTxns := markTxnFailedByOrderId db.paymentTxns orderId })
  else
    match db.paymentTxns.find? (fun t =>
        t.razorpayOrderId == orderId && t.userId == userId) with
    | none => (.error .txnNotFound, db)
    | some payment =>
      if payment.status == "success" then (.error .alreadyVerified, db)
      else
        match db.eventBookings.find? (fun b => b.id == payment.bookingId) with
        | none => (.error .bookingNotFound, db)
        | some booking =>
          let db1 : DB :=
            if decide (0 < payment.details.loyaltyPointsUsed)
            then debitLoyalty db userId payment.details.loyaltyPointsUsed
            else db
          let db2 : DB := { db1 with eventBookings := db1.eventBookings.map (fun b =>
            if b.id == payment.bookingId then
              { b with status := 1
                       paymentInformation :=
                         { razorpayOrderId := orderId
                           razorpayPaymentId := some paymentId
                           amount := payment.amount, paymentStatus := "success"
                           loyaltyPointsUsed := some payment.details.loyaltyPointsUsed
                           couponDiscount := none } }
            else b) }
          let db3 : DB := { db2 with paymentTxns := db2.paymentTxns.map (fun t =>
            if t.id == payment.id then
              { t with status := "success", razorpayPaymentId := some paymentId
                       razorpaySignature := some signature }
            else t) }
          (.ok { bookingId := booking.id, bookingNumber := booking.booking }, db3)

/-- The uniqueness key of the `seat_locks` table. -/
def lockKey (l : SeatLock) : Nat × String := (l.scheduleId, l.seatNumber)

/-- The booking number of a successful order-creation result. -/
def okBookingNumber : Except OrderError OrderOk → Option String
  | .ok r => some r.bookingNumber
  | .error _ => none

/-! ### Concrete fixtures used by counterexamples and witnesses -/

/-- A fixture payment-information blob for concrete booking rows. -/
def blobFixture : PaymentBlob :=
  { razorpayOrderId := "order_x", razorpayPaymentId := none, amount := 0
    paymentStatus := "pending", loyaltyPointsUsed := none, couponDiscount := none }

/-- A database whose only booking is a pending (status 0) booking of seat A1
on schedule 10. -/
def dbC1 : DB :=
  { emptyDB with theaterBookings := [
      { id := 1, scheduleId := 10, booking := "BK20250101001", status := 0
        seatsBooked := ["A1"], userId := 7, totalAmount := 0, qty := 1
        paymentInformation := blobFixture, createdDate := ⟨2025, 1, 1⟩
        createdAt := 0, deleted := false }] }

/-- A schedule fixture: schedule 1 on theater 1 with a single online seat A1
in category 1 priced at a base ₹200 (shown on a weekday). -/
def schedFix : Schedule :=
  { id := 1, theaterId := 1, movieTitle := "M", dayOfWeek := 3
    layout := [{ seatNumber := "A1", categoryId := 1, quotaOnline := true }]
    onlineSeats := ["A1"]
    pricing := [("regular", { basePrice := 200, weekendPrice := none, holidayPrice := none })]
    active := true, deleted := false }

/-- A database where user 1 holds a live lock on seat A1 of schedule 1
(expiring at minute 10) and nothing is booked. -/
def dbLockCx : DB :=
  { emptyDB with
      schedules := [schedFix]
      pricingCategories := [{ id := 1, category := "Regular" }]
      profiles := [{ id := 2, loyaltyPoints := 0 }]
      seatLocks := [{ scheduleId := 1, seatNumber := "A1", userId := 1
                      lockedAt := 0, expiresAt := 10 }] }

/-- A database where seat A1 of schedule 1 is already booked (a confirmed
booking by user 9). -/
def dbBookedFix : DB :=
  { emptyDB with
      schedules := [schedFix]
      pricingCategories := [{ id := 1, category := "Regular" }]
      theaterBookings := [
        { id := 1, scheduleId := 1, booking := "BK20250101001", status := 1
          seatsBooked := ["A1"], userId := 9, totalAmount := 0, qty := 1
          paymentInformation := blobFixture, createdDate := ⟨2025, 1, 1⟩
          createdAt := 0, deleted := false }] }

/-- A flat ₹200 coupon with no minimum order value. -/
def flatCoupon200 : Coupon :=
  { couponCode := "FLAT200", discountType := "1", discountValue := 200
    maxDiscountAmount := none, minDiscountAmount := none
    startDate := ⟨2025, 1, 1⟩, endDate := ⟨2025, 12, 31⟩
    active := true, deleted := false }

/-- A fixed stand-in for the gateway's HMAC function. -/
def hmacFix : String → String := fun _ => "mac"

/-- A pending payment transaction of user 1 for gateway order `ord1`, whose
snapshot records 5 redeemed loyalty points. -/
def txnFix : PaymentTxn :=
  { id := 1, userId := 1, bookingId := 1, razorpayOrderId := "ord1", amount := 118
    status := "pending"
    details := { scheduleId := 1, loyaltyPointsUsed := 5, couponDiscount := 0 }
    razorpayPaymentId := none, razorpaySignature := none }

/-- The pending theater booking linked to `txnFix`. -/
def bookingFix : TheaterBooking :=
  { id := 1, scheduleId := 1, booking := "BK20250101001", status := 0
    seatsBooked := ["A1"], userId := 1, totalAmount := 118, qty := 1
    paymentInformation := blobFixture, createdDate := ⟨2025, 1, 1⟩
    createdAt := 0, deleted := false }

/-- The pending event booking linked to `txnFix` in the event fixtures. -/
def eventBookingFix : EventBooking :=
  { id := 1, booking := "BK20250101001", userId := 1, ticketQtys := [(1, 2)]
    qty := 2, totalAmount := 118, status := 0, paymentInformation := blobFixture
    createdDate := ⟨2025, 1, 1⟩, deleted := false }

/-- A database with the pending transaction/booking pair and a balance of 10
loyalty points for user 1. -/
def dbC6 : DB :=
  { emptyDB with paymentTxns := [txnFix], theaterBookings := [bookingFix]
                 profiles := [{ id := 1, loyaltyPoints := 10 }] }

/-- A database with the pending transaction/booking pair and no profile rows. -/
def dbVerifyFix : DB :=
  { emptyDB with paymentTxns := [txnFix], theaterBookings := [bookingFix] }

/-- A database where user 1's balance (3) is below the 5 points recorded in
the transaction snapshot. -/
def dbC9 : DB :=
  { emptyDB with paymentTxns := [txnFix], theaterBookings := [bookingFix]
                 profiles := [{ id := 1, loyaltyPoints := 3 }] }

/-- The event-side analogue of `dbC9`. -/
def dbC9e : DB :=
  { emptyDB with paymentTxns := [txnFix], eventBookings := [eventBookingFix]
                 profiles := [{ id := 1, loyaltyPoints := 3 }] }

/-- The pricing scenario schedule: two online seats A1 and A2 in category 1
at a base price of ₹200, shown on a weekday. -/
def schedScen : Schedule :=
  { id := 10, theaterId := 1, movieTitle := "M", dayOfWeek := 3
    layout := [{ seatNumber := "A1", categoryId := 1, quotaOnline := true },
               { seatNumber := "A2", categoryId := 1, quotaOnline := true }]
    onlineSeats := ["A1", "A2"]
    pricing := [("regular", { basePrice := 200, weekendPrice := none, holidayPrice := none })]
    active := true, deleted := false }

/-- The pricing scenario database. -/
def dbScen : DB :=
  { emptyDB with schedules := [schedScen]
                 pricingCategories := [{ id := 1, category := "Regular" }]
                 profiles := [{ id := 1, loyaltyPoints := 0 }] }

/-- A database with an active event and a 100-ticket allocation. -/
def dbC8 : DB :=
  { emptyDB with
      events := [{ id := 1, eventName := "E", active := true, deleted := false }]
      eventTickets := [{ id := 1, eventId := 1, ticketName := "GA", price := 50
                         totalQuantity := 100, active := true, deleted := false }]
      profiles := [{ id := 1, loyaltyPoints := 0 }] }

/-! ### General helper lemmas -/

/-- `find?` commutes with a row update that does not disturb the search
predicate. -/
theorem find?_map_eq {α : Type} (f : α → α) (p : α → Bool)
    (hp : ∀ x, p (f x) = p x) (l : List α) :
    (l.map f).find? p = (l.find? p).map f := by
  induction l with
  | nil => rfl
  | cons a t ih =>
    rw [List.map_cons]
    by_cases h : p a = true
    · rw [List.find?_cons_of_pos _ h, List.find?_cons_of_pos _ ((hp a).trans h)]
      rfl
    · have h' : p a = false := by simpa using h
      rw [List.find?_cons_of_neg _ (by simp [hp a, h']),
          List.find?_cons_of_neg _ (by simp [h']), ih]

/-- Filtering after a row update that neither disturbs the filter predicate
nor changes the rows it keeps is filtering the original list. -/
theorem filter_map_invariant {α : Type} (f : α → α) (p : α → Bool)
    (h1 : ∀ x, p (f x) = p x) (h2 : ∀ x, p x = true → f x = x) (l : List α) :
    (l.map f).filter p = l.filter p := by
  induction l with
  | nil => rfl
  | cons a t ih =>
    rw [List.map_cons, List.filter_cons, List.filter_cons, h1 a]
    by_cases h : p a = true
    · rw [if_pos h, if_pos h, h2 a h, ih]
    · have h' : p a = false := by simpa using h
      rw [if_neg (by simp [h']), if_neg (by simp [h']), ih]

/-- Two-decimal rounding of a non-negative amount is non-negative. -/
theorem round2_nonneg (q : ℚ) (h : 0 ≤ q) : 0 ≤ round2 q := by
  unfold round2
  apply div_nonneg _ (by norm_num)
  have h2 : (0 : ℤ) ≤ round (q * 100) := by
    rw [round_eq]
    refine Int.le_floor.mpr ?_
    push_cast
    linarith
  exact_mod_cast h2

/-! ### C1 — what availability reports as booked -/

/-- Membership in the booked-seat union, unfolded to the underlying booking
rows. -/
theorem mem_bookedSeatIds (db : DB) (scheduleId : Nat) (seat : String) :
    seat ∈ bookedSeatIds db scheduleId ↔
      ∃ b ∈ db.theaterBookings, b.scheduleId = scheduleId
        ∧ (b.status = 1 ∨ b.status = 3) ∧ b.deleted = false ∧ seat ∈ b.seatsBooked := by
  unfold bookedSeatIds
  simp only [List.mem_flatMap, List.mem_filter, Bool.and_eq_true, Bool.or_eq_true,
    beq_iff_eq, Bool.not_eq_true']
  constructor
  · rintro ⟨b, ⟨hb, ⟨hsched, hstat⟩, hdel⟩, hseat⟩
    exact ⟨b, hb, hsched, hstat, hdel, hseat⟩
  · rintro ⟨b, hb, hsched, hstat, hdel, hseat⟩
    exact ⟨b, ⟨hb, ⟨hsched, hstat⟩, hdel⟩, hseat⟩

/-- The stale-pending sweep neither adds nor removes rows counted as booked:
it only moves stale pending rows (status 0) to cancelled (status 2), and the
booked filter keeps exactly the status-1/status-3 rows. -/
theorem bookedSeatIds_cleanup (db : DB) (now scheduleId : Nat) :
    bookedSeatIds (cleanupPendingBookings db now) scheduleId
      = bookedSeatIds db scheduleId := by
  unfold bookedSeatIds cleanupPendingBookings
  rw [filter_map_invariant]
  · intro b
    by_cases hc : (b.status == 0 && decide (b.createdAt + lockTTL < now) && !b.deleted) = true
    · have h0 : b.status = 0 := by
        have := hc
        simp only [Bool.and_eq_true, beq_iff_eq] at this
        exact this.1.1
      rw [if_pos hc]
      simp [h0]
    · rw [if_neg hc]
  · intro b hpb
    have hst : b.status = 1 ∨ b.status = 3 := by
      simp only [Bool.and_eq_true, Bool.or_eq_true, beq_iff_eq] at hpb
      exact hpb.1.2
    have : (b.status == 0) = false := by
      rcases hst with h | h <;> simp [h]
    rw [if_neg (by simp [this])]

/-- C1 (amended): `getSeatLayout` reports a seat as `booked`, and the
booked-seat screening shared with `lockSeats`/`createOrder` counts it, exactly
when some non-soft-deleted booking for the schedule in status confirmed (1) or
completed (3) references it in its seat snapshot — pending bookings do not
mark seats as booked. -/
theorem c1_booked_iff :
    ∀ (db : DB) (now : Nat) (viewer : Option Nat) (scheduleId : Nat) (seat : String),
    (getSeatLayoutStatus db now viewer scheduleId seat = "booked"
      ↔ ∃ b ∈ db.theaterBookings, b.scheduleId = scheduleId
          ∧ (b.status = 1 ∨ b.status = 3) ∧ b.deleted = false ∧ seat ∈ b.seatsBooked)
    ∧ (seat ∈ bookedSeatIds db scheduleId
      ↔ ∃ b ∈ db.theaterBookings, b.scheduleId = scheduleId
          ∧ (b.status = 1 ∨ b.status = 3) ∧ b.deleted = false ∧ seat ∈ b.seatsBooked) := by
  intro db now viewer scheduleId seat
  refine ⟨?_, mem_bookedSeatIds db scheduleId seat⟩
  rw [← mem_bookedSeatIds]
  simp only [getSeatLayoutStatus]
  rw [bookedSeatIds_cleanup]
  by_cases hb : seat ∈ bookedSeatIds db scheduleId
  · rw [if_pos (List.elem_iff.mpr hb)]
    simp [hb]
  · rw [if_neg (fun hc => hb (List.elem_iff.mp hc))]
    constructor
    · intro hs
      exfalso
      by_cases hl : ((lockedSeatNumbersForViewer (cleanupPendingBookings db now)
          scheduleId now viewer).contains seat) = true
      · rw [if_pos hl] at hs
        exact absurd hs (by decide)
      · rw [if_neg hl] at hs
        exact absurd hs (by decide)
    · intro hs
      exact absurd hs hb

/-- C1 counterexample: a pending (status 0) booking references seat A1, so a
booking in status {pending, confirmed} for the schedule references A1, yet
`getSeatLayout` does not report A1 as `booked` — refuting the claim that the
availability computation reports a seat as booked exactly when a pending or
confirmed booking references it. -/
theorem c1_counterexample :
    (∃ b ∈ dbC1.theaterBookings, b.scheduleId = 10 ∧ (b.status = 0 ∨ b.status = 1)
      ∧ b.deleted = false ∧ "A1" ∈ b.seatsBooked)
    ∧ getSeatLayoutStatus dbC1 0 none 10 "A1" ≠ "booked" := by
  constructor
  · exact ⟨_, List.mem_cons_self _ _, rfl, Or.inl rfl, rfl, List.mem_cons_self _ _⟩
  · decide

/-! ### C2 — hold exclusivity -/

/-- The seat-lock upsert keeps the `(schedule, seat)` keys duplicate-free. -/
theorem upsertLock_keys_nodup (locks : List SeatLock) (sid : Nat) (seat : String)
    (uid now : Nat) (h : (locks.map lockKey).Nodup) :
    ((upsertLock locks sid seat uid now).map lockKey).Nodup := by
  unfold upsertLock
  split
  · have heq : ((locks.map (fun l =>
        if l.scheduleId == sid && l.seatNumber == seat then
          { l with userId := uid, lockedAt := now, expiresAt := now + lockTTL }
        else l)).map lockKey) = locks.map lockKey := by
      rw [List.map_map]
      apply List.map_congr_left
      intro l _
      by_cases hc : (l.scheduleId == sid && l.seatNumber == seat) = true
      · simp [Function.comp, hc, lockKey]
      · simp [Function.comp, hc, lockKey]
    rw [heq]
    exact h
  · rename_i hnex
    rw [List.map_append]
    rw [List.nodup_append]
    refine ⟨h, by simp, ?_⟩
    intro k hk hk1
    simp only [List.map_cons, List.map_nil, List.mem_singleton] at hk1
    subst hk1
    simp only [List.mem_map] at hk
    obtain ⟨l, hl, hlk⟩ := hk
    apply hnex
    refine List.any_eq_true.mpr ⟨l, hl, ?_⟩
    have h1 : l.scheduleId = sid := congrArg Prod.fst hlk
    have h2 : l.seatNumber = seat := congrArg Prod.snd hlk
    simp [h1, h2]

/-- Folding the upsert over a seat list keeps the keys duplicate-free. -/
theorem foldl_upsert_nodup (seats : List String) (sid uid now : Nat) :
    ∀ locks : List SeatLock, (locks.map lockKey).Nodup →
      ((seats.foldl (fun ls s => upsertLock ls sid s uid now) locks).map lockKey).Nodup := by
  induction seats with
  | nil => intro locks h; exact h
  | cons s t ih =>
    intro locks h
    exact ih _ (upsertLock_keys_nodup locks sid s uid now h)

/-- Deleting rows (a `filter`) keeps the keys duplicate-free. -/
theorem filter_locks_nodup (locks : List SeatLock) (q : SeatLock → Bool)
    (h : (locks.map lockKey).Nodup) : (((locks.filter q).map lockKey)).Nodup :=
  h.sublist (List.Sublist.map lockKey (List.filter_sublist locks))

/-- C2 (amended): the seat-lock table keeps at most one hold per
`(schedule, seat)` key across `lockSeats` and `createOrder` (so at most one
live hold per seat), and `lockSeats` refuses to touch a seat carrying another
user's live hold, failing with a conflict that names it; however
`createOrder`'s implicit hold acquisition upserts unconditionally and so can
replace another user's live hold (see the counterexample). -/
theorem c2_hold_exclusivity :
    (∀ (db : DB) (now uid sid : Nat) (seats : List String) (db' : DB),
      (db.seatLocks.map lockKey).Nodup →
      lockSeats db now uid sid seats = .ok db' →
      (db'.seatLocks.map lockKey).Nodup)
    ∧ (∀ (db : DB) (now : Nat) (today : Date) (uid sid : Nat) (seats : List String)
        (fi : List (Nat × Nat)) (cc : Option String) (ul : Bool),
      (db.seatLocks.map lockKey).Nodup →
      (((createOrder db now today uid sid seats fi cc ul).2.seatLocks.map lockKey).Nodup))
    ∧ (∀ (db : DB) (now uid sid : Nat) (seats : List String) (l : SeatLock),
      l ∈ db.seatLocks → l.scheduleId = sid → l.seatNumber ∈ seats →
      now < l.expiresAt → l.userId ≠ uid →
      ∃ ss, lockSeats db now uid sid seats = .error (.lockedByOther ss)
        ∧ l.seatNumber ∈ ss)
    ∧ (∀ (locks : List SeatLock) (sid : Nat) (seat : String) (uid now : Nat),
      (locks.any (fun l => l.scheduleId == sid && l.seatNumber == seat)) = true →
      (upsertLock locks sid seat uid now).length = locks.length
      ∧ ∀ l ∈ upsertLock locks sid seat uid now,
          l.scheduleId = sid → l.seatNumber = seat →
          l.userId = uid ∧ l.expiresAt = now + lockTTL) := by
  refine ⟨?_, ?_, ?_, ?_⟩
  · intro db now uid sid seats db' hnd h
    simp only [lockSeats] at h
    split at h
    · exact absurd h (by simp)
    split at h
    · exact absurd h (by simp)
    split at h
    · exact absurd h (by simp)
    cases h
    exact foldl_upsert_nodup seats sid uid now _
      (filter_locks_nodup db.seatLocks _ hnd)
  · intro db now today uid sid seats fi cc ul hnd
    simp only [createOrder]
    split
    · exact hnd
    split
    · exact foldl_upsert_nodup seats sid uid now _ hnd
    split
    · exact foldl_upsert_nodup seats sid uid now _ hnd
    · exact foldl_upsert_nodup seats sid uid now _ hnd
  · intro db now uid sid seats l hl hsid hseat hlive huser
    have hseats : seats.isEmpty = false := by
      cases seats with
      | nil => cases hseat
      | cons a t => rfl
    have hkeep : l ∈ db.seatLocks.filter (fun l => !(l.expiresAt < now)) := by
      rw [List.mem_filter]
      exact ⟨hl, by simp [Nat.lt_asymm hlive]⟩
    have hmem : l.seatNumber ∈
        ((db.seatLocks.filter (fun l => !(l.expiresAt < now))).filter (fun l =>
          l.scheduleId == sid && seats.contains l.seatNumber
            && decide (now < l.expiresAt) && l.userId != uid)).map
          (fun l => l.seatNumber) := by
      refine List.mem_map_of_mem _ ?_
      rw [List.mem_filter]
      refine ⟨hkeep, ?_⟩
      have hc : seats.contains l.seatNumber = true := List.elem_iff.mpr hseat
      have hu : (l.userId != uid) = true := by
        simp [bne_iff_ne, huser]
      simp [hsid, hc, hlive, hu, hseat]
    have hlist_ne : ((db.seatLocks.filter (fun l => !(l.expiresAt < now))).filter (fun l =>
        l.scheduleId == sid && seats.contains l.seatNumber
          && decide (now < l.expiresAt) && l.userId != uid)).map
        (fun l => l.seatNumber) ≠ [] := by
      intro hnil
      rw [hnil] at hmem
      cases hmem
    refine ⟨_, ?_, hmem⟩
    simp only [lockSeats]
    rw [if_neg (by simp [hseats]),
        if_pos (Bool.eq_false_iff.mpr (fun ht => hlist_ne (List.isEmpty_iff.mp ht)))]
  · intro locks sid seat uid now hex
    unfold upsertLock
    rw [if_pos hex]
    refine ⟨List.length_map _ _, ?_⟩
    intro l hl h1 h2
    obtain ⟨l0, hl0, hfl⟩ := List.mem_map.mp hl
    by_cases hc : (l0.scheduleId == sid && l0.seatNumber == seat) = true
    · rw [if_pos hc] at hfl
      rw [← hfl]
      exact ⟨rfl, rfl⟩
    · rw [if_neg hc] at hfl
      subst hfl
      exact absurd (by simp [h1, h2]) hc

/-- C2 counterexample: user 1 holds a live lock on A1 (now = 5 < 10 =
expiry), yet `createOrder` called by user 2 succeeds and replaces that live
hold with user 2's own — refuting the claim that no hold-writing operation
ever replaces a live hold of a different user. -/
theorem c2_counterexample :
    (dbLockCx.seatLocks = [{ scheduleId := 1, seatNumber := "A1", userId := 1
                             lockedAt := 0, expiresAt := 10 }])
    ∧ (5 : Nat) < 10
    ∧ ((createOrder dbLockCx 5 ⟨2025, 1, 15⟩ 2 1 ["A1"] [] none false).2.seatLocks.map
        (fun l => (l.scheduleId, l.seatNumber, l.userId, l.expiresAt)))
        = [(1, "A1", 2, 20)]
    ∧ (∃ r, (createOrder dbLockCx 5 ⟨2025, 1, 15⟩ 2 1 ["A1"] [] none false).1 = .ok r) := by
  refine ⟨by decide, by decide, by decide, ⟨_, rfl⟩⟩

/-- C2 witness: the amended theorem applied to the concrete fixture — the
lock table keys stay duplicate-free through a `createOrder`, and `lockSeats`
by user 2 against user 1's live hold on A1 conflicts naming A1. -/
theorem c2_witness :
    ((dbLockCx.seatLocks.map lockKey).Nodup)
    ∧ (((createOrder dbLockCx 5 ⟨2025, 1, 15⟩ 2 1 ["A1"] [] none false).2.seatLocks.map
        lockKey).Nodup)
    ∧ (∃ ss, lockSeats dbLockCx 5 2 1 ["A1"] = .error (.lockedByOther ss)
        ∧ "A1" ∈ ss)
    ∧ (upsertLock dbLockCx.seatLocks 1 "A1" 1 5).length = dbLockCx.seatLocks.length := by
  refine ⟨by decide, ?_, ?_, ?_⟩
  · exact c2_hold_exclusivity.2.1 dbLockCx 5 ⟨2025, 1, 15⟩ 2 1 ["A1"] [] none false
      (by decide)
  · exact c2_hold_exclusivity.2.2.1 dbLockCx 5 2 1 ["A1"]
      { scheduleId := 1, seatNumber := "A1", userId := 1, lockedAt := 0, expiresAt := 10 }
      (by decide) rfl (by decide) (by decide) (by decide)
  · exact (c2_hold_exclusivity.2.2.2 dbLockCx.seatLocks 1 "A1" 1 5 (by decide)).1

/-! ### C3 — what makes createOrder abort -/

/-- Full characterization of the theater `createOrder` abort on unavailable
seats: with the schedule found and some requested seat outside the online
quota or already booked, the call returns the seat-naming error and the state
with only the auto-acquired locks changed. -/
theorem createOrder_unavailable_eq (db : DB) (now : Nat) (today : Date)
    (uid sid : Nat) (seats : List String) (fi : List (Nat × Nat))
    (cc : Option String) (ul : Bool) (sched : Schedule)
    (hs : findSchedule db sid = some sched)
    (hne : (seats.filter (fun s =>
        !(sched.onlineSeats.contains s) || (bookedSeatIds db sid).contains s)) ≠ []) :
    createOrder db now today uid sid seats fi cc ul
      = (.error (.seatsNotAvailable (seats.filter (fun s =>
            !(sched.onlineSeats.contains s) || (bookedSeatIds db sid).contains s))),
         { db with seatLocks :=
             seats.foldl (fun ls s => upsertLock ls sid s uid now) db.seatLocks }) := by
  have hseats : seats.isEmpty = false := by
    cases seats with
    | nil => simp at hne
    | cons a t => rfl
  have hcond : (seats.filter (fun s =>
      !(sched.onlineSeats.contains s) || (bookedSeatIds db sid).contains s)).isEmpty
      = false :=
    Bool.eq_false_iff.mpr (fun ht => hne (List.isEmpty_iff.mp ht))
  simp only [createOrder]
  rw [if_neg (by simp [hseats])]
  split
  · rename_i heq
    rw [hs] at heq
    cases heq
  · rename_i sched' heq
    rw [hs] at heq
    injection heq with heq'
    subst heq'
    rw [if_pos hcond]

/-- C3 (amended): the theater `createOrder` aborts, naming the unavailable
seats, exactly when a requested seat is outside the online quota or already
booked (status confirmed/completed) — this re-check runs inside `createOrder`
regardless of any lock held — and on that abort no booking row, no payment
transaction and no gateway order is created; a live hold of another user is
not part of this re-check (see the counterexample). -/
theorem c3_unavailable_aborts (db : DB) (now : Nat) (today : Date)
    (uid sid : Nat) (seats : List String) (fi : List (Nat × Nat))
    (cc : Option String) (ul : Bool) (sched : Schedule)
    (hs : findSchedule db sid = some sched)
    (hne : (seats.filter (fun s =>
        !(sched.onlineSeats.contains s) || (bookedSeatIds db sid).contains s)) ≠ []) :
    (createOrder db now today uid sid seats fi cc ul).1
      = .error (.seatsNotAvailable (seats.filter (fun s =>
          !(sched.onlineSeats.contains s) || (bookedSeatIds db sid).contains s)))
    ∧ (createOrder db now today uid sid seats fi cc ul).2.theaterBookings
        = db.theaterBookings
    ∧ (createOrder db now today uid sid seats fi cc ul).2.paymentTxns = db.paymentTxns
    ∧ (createOrder db now today uid sid seats fi cc ul).2.gatewayOrders
        = db.gatewayOrders := by
  rw [createOrder_unavailable_eq db now today uid sid seats fi cc ul sched hs hne]
  exact ⟨rfl, rfl, rfl, rfl⟩

/-- C3 witness: on a database where A1 is already booked, `createOrder` by a
different user aborts naming A1 and leaves bookings, transactions and gateway
orders untouched. -/
theorem c3_witness :
    (["A1"].filter (fun s =>
        !(schedFix.onlineSeats.contains s) || (bookedSeatIds dbBookedFix 1).contains s))
      = ["A1"]
    ∧ (createOrder dbBookedFix 0 ⟨2025, 1, 15⟩ 2 1 ["A1"] [] none false).1
        = .error (.seatsNotAvailable (["A1"].filter (fun s =>
            !(schedFix.onlineSeats.contains s) || (bookedSeatIds dbBookedFix 1).contains s)))
    ∧ (createOrder dbBookedFix 0 ⟨2025, 1, 15⟩ 2 1 ["A1"] [] none false).2.theaterBookings
        = dbBookedFix.theaterBookings := by
  refine ⟨by decide, ?_, ?_⟩
  · exact (c3_unavailable_aborts dbBookedFix 0 ⟨2025, 1, 15⟩ 2 1 ["A1"] [] none false
      schedFix rfl (by decide)).1
  · exact (c3_unavailable_aborts dbBookedFix 0 ⟨2025, 1, 15⟩ 2 1 ["A1"] [] none false
      schedFix rfl (by decide)).2.1

/-- C3 counterexample: seat A1 carries a live hold of user 1 (now = 5 < 10),
yet `createOrder` by user 2 does not abort: it succeeds, creates a pending
booking row for A1 owned by user 2 and a gateway order — refuting the claim
that a seat covered by another user's live hold makes `createOrder` abort
with no booking row and no gateway order. -/
theorem c3_counterexample :
    (dbLockCx.seatLocks = [{ scheduleId := 1, seatNumber := "A1", userId := 1
                             lockedAt := 0, expiresAt := 10 }])
    ∧ (5 : Nat) < 10
    ∧ (∃ r, (createOrder dbLockCx 5 ⟨2025, 1, 15⟩ 2 1 ["A1"] [] none false).1 = .ok r)
    ∧ ((createOrder dbLockCx 5 ⟨2025, 1, 15⟩ 2 1 ["A1"] [] none false).2.theaterBookings.map
        (fun b => (b.id, b.status, b.seatsBooked, b.userId))) = [(1, 0, ["A1"], 2)]
    ∧ (createOrder dbLockCx 5 ⟨2025, 1, 15⟩ 2 1 ["A1"] [] none false).2.gatewayOrders
        = ["order_0"] :=
  ⟨by decide, by decide, ⟨_, rfl⟩, by decide, by decide⟩

/-! ### C4 — pricing formula -/

/-- C4: for every pricing computation shared by `calculatePrice` and
`createOrder`, the output-boundary total equals
`round2((ticketSubtotal + foodSubtotal + platformFee - couponDiscount -
loyaltyRedeemed) * 1.18)`; and on the concrete scenario of two ₹200 seats
with the flat ₹18 platform fee, no coupon and no loyalty, the breakdown is
subtotal 418, GST 75.24 and total 493.24, as returned by `createOrder` on a
concrete database. -/
theorem c4_total_formula :
    (∀ (t f : ℚ) (c : Option Coupon) (ul : Bool) (ap : ℚ),
      round2 (computePricing t f c ul ap).totalAmount
        = round2 ((t + f + 18 - (computePricing t f c ul ap).couponDiscount
            - (computePricing t f c ul ap).loyaltyPointsUsed) * (118 / 100)))
    ∧ (computePricing 400 0 none false 0).subtotal = 418
    ∧ round2 (computePricing 400 0 none false 0).gst = 7524 / 100
    ∧ round2 (computePricing 400 0 none false 0).totalAmount = 49324 / 100
    ∧ (createOrder dbScen 0 ⟨2025, 1, 15⟩ 1 10 ["A1", "A2"] [] none false).1
        = .ok { orderId := "order_0", bookingId := 1
                bookingNumber := "BK20250115001", amount := 49324 / 100 } := by
  refine ⟨fun t f c ul ap => ?_, by norm_num [computePricing], ?_, ?_, ?_⟩
  · have h : (computePricing t f c ul ap).totalAmount
        = (t + f + 18 - (computePricing t f c ul ap).couponDiscount
            - (computePricing t f c ul ap).loyaltyPointsUsed) * (118 / 100) := by
      simp only [computePricing]
      ring
    rw [h]
  · norm_num [computePricing, round2]
  · norm_num [computePricing, round2]
  · simp +decide [createOrder, dbScen, schedScen, emptyDB, findSchedule, bookedSeatIds,
      theaterTicketPrice, seatUnitPrice, getCategoryName, strToLower, lowerChar,
      unitPrice, isWeekendOf, theaterFoodPrice, computePricing, userLoyaltyPoints,
      getNextBookingNumber, countBookingsToday, generateBookingNumber, padZero,
      upsertLock, round2, List.find?, List.filter, List.foldl]
    norm_num [round_eq]

/-! ### C5 — loyalty redemption and non-negative totals -/

/-- C5 (amended): when loyalty redemption is requested with a positive
balance, the redeemed amount equals `min(balance, subtotal − couponDiscount)`;
and the rounded total is non-negative whenever the computed coupon discount
does not exceed the subtotal — a flat coupon exceeding the subtotal can drive
the total negative (see the counterexample). -/
theorem c5_loyalty_and_nonneg :
    (∀ (t f : ℚ) (c : Option Coupon) (ap : ℚ), 0 < ap →
      (computePricing t f c true ap).loyaltyPointsUsed
        = min ap ((computePricing t f c true ap).subtotal
            - (computePricing t f c true ap).couponDiscount))
    ∧ (∀ (t f : ℚ) (c : Option Coupon) (ul : Bool) (ap : ℚ),
        (computePricing t f c ul ap).couponDiscount
          ≤ (computePricing t f c ul ap).subtotal →
        0 ≤ round2 (computePricing t f c ul ap).totalAmount) := by
  constructor
  · intro t f c ap hap
    simp only [computePricing]
    rw [if_pos (by simp [hap])]
  · intro t f c ul ap h
    apply round2_nonneg
    simp only [computePricing] at h ⊢
    set s := t + f + 18 with hs
    set cd := (match c with
      | none => (0 : ℚ)
      | some c => couponDiscountOf s c) with hcd
    by_cases hul : (ul && decide (0 < ap)) = true
    · rw [if_pos hul]
      have hmin : min ap (s - cd) ≤ s - cd := min_le_right _ _
      nlinarith [hmin]
    · rw [if_neg hul]
      nlinarith [h]

/-- C5 witness: the theorem applied at concrete inputs — with balance 5 on a
coupon-free ₹100 ticket, the redemption is `min 5 118 = 5`, and the no-coupon
total is non-negative. -/
theorem c5_witness :
    (0 : ℚ) < 5
    ∧ (computePricing 100 0 none true 5).loyaltyPointsUsed
        = min 5 ((computePricing 100 0 none true 5).subtotal
            - (computePricing 100 0 none true 5).couponDiscount)
    ∧ 0 ≤ round2 (computePricing 100 0 none false 0).totalAmount :=
  ⟨by norm_num,
   c5_loyalty_and_nonneg.1 100 0 none 5 (by norm_num),
   c5_loyalty_and_nonneg.2 100 0 none false 0 (by norm_num [computePricing])⟩

/-! ### C6 — verification is exactly-once -/

/-- Full characterization of the theater `verifyPayment` success path: with a
valid signature, a pending transaction of the requester and its linked
booking present, the call confirms the booking, debits the snapshot loyalty
points (when positive), flips the transaction to success and releases the
requester's locks. -/
theorem verifyPayment_ok_eq (db : DB) (hmac : String → String) (u : Nat)
    (oid pid sig : String) (T : PaymentTxn) (B : TheaterBooking)
    (hsig : verifySignature hmac oid pid sig = true)
    (hT : db.paymentTxns.find? (fun t => t.razorpayOrderId == oid && t.userId == u) = some T)
    (hTs : T.status = "pending")
    (hB : db.theaterBookings.find? (fun b => b.id == T.bookingId) = some B) :
    verifyPayment db hmac u oid pid sig
      = (.ok { bookingId := B.id, bookingNumber := B.booking },
         { db with
           profiles :=
             if decide (0 < T.details.loyaltyPointsUsed) then
               db.profiles.map (fun p =>
                 if p.id == u then
                   { p with loyaltyPoints := p.loyaltyPoints - T.details.loyaltyPointsUsed }
                 else p)
             else db.profiles
           theaterBookings := db.theaterBookings.map (fun b =>
             if b.id == T.bookingId then
               { b with status := 1
                        paymentInformation :=
                          { razorpayOrderId := oid, razorpayPaymentId := some pid
                            amount := T.amount, paymentStatus := "success"
                            loyaltyPointsUsed := some T.details.loyaltyPointsUsed
                            couponDiscount := some T.details.couponDiscount } }
             else b)
           paymentTxns := db.paymentTxns.map (fun t =>
             if t.id == T.id then
               { t with status := "success", razorpayPaymentId := some pid
                        razorpaySignature := some sig }
             else t)
           seatLocks := db.seatLocks.filter (fun l =>
             !(l.scheduleId == T.details.scheduleId && l.userId == u)) }) := by
  have hps : (("pending" : String) == "success") = false := by decide
  simp only [verifyPayment, hsig, hT, hTs, hB, hps, debitLoyalty]
  by_cases hl : decide (0 < T.details.loyaltyPointsUsed) = true
  · simp [hl]
  · simp only [Bool.not_eq_true] at hl
    simp [hl]

/-- C6: verification is exactly-once — the first `verifyPayment` with a valid
proof succeeds, flips the linked booking to confirmed and debits the
requester's loyalty balance by the snapshot amount; a second call with the
same proof is rejected with a conflict and performs no writes (the state is
returned unchanged), so the booking is confirmed exactly once and the balance
debited exactly once. -/
theorem c6_exactly_once (db : DB) (hmac : String → String) (u : Nat)
    (oid pid sig : String) (T : PaymentTxn) (B : TheaterBooking) (P : UserProfile)
    (hsig : verifySignature hmac oid pid sig = true)
    (hT : db.paymentTxns.find? (fun t => t.razorpayOrderId == oid && t.userId == u) = some T)
    (hTs : T.status = "pending")
    (hB : db.theaterBookings.find? (fun b => b.id == T.bookingId) = some B)
    (hP : db.profiles.find? (fun p => p.id == u) = some P)
    (hL : 0 < T.details.loyaltyPointsUsed) :
    (∃ r, (verifyPayment db hmac u oid pid sig).1 = .ok r)
    ∧ (∃ B2, (verifyPayment db hmac u oid pid sig).2.theaterBookings.find?
          (fun b => b.id == T.bookingId) = some B2 ∧ B2.status = 1)
    ∧ (verifyPayment db hmac u oid pid sig).2.profiles.find? (fun p => p.id == u)
        = some { P with loyaltyPoints := P.loyaltyPoints - T.details.loyaltyPointsUsed }
    ∧ verifyPayment ((verifyPayment db hmac u oid pid sig).2) hmac u oid pid sig
        = (.error .alreadyVerified, (verifyPayment db hmac u oid pid sig).2) := by
  rw [verifyPayment_ok_eq db hmac u oid pid sig T B hsig hT hTs hB]
  dsimp only
  have hBid : (B.id == T.bookingId) = true :=
    @List.find?_some _ (fun b => b.id == T.bookingId) B db.theaterBookings hB
  have hPid : (P.id == u) = true :=
    @List.find?_some _ (fun p => p.id == u) P db.profiles hP
  refine ⟨⟨_, rfl⟩, ?_, ?_, ?_⟩
  · rw [find?_map_eq _ _ (fun b => by
        by_cases hc : (b.id == T.bookingId) = true <;> simp [hc]), hB]
    refine ⟨_, rfl, ?_⟩
    simp [hBid]
  · rw [if_pos (decide_eq_true hL)]
    rw [find?_map_eq _ _ (fun p => by
        by_cases hc : (p.id == u) = true <;> simp [hc]), hP]
    simp only [Option.map_some']
    rw [if_pos hPid]
  · have hfind : (db.paymentTxns.map (fun t =>
        if t.id == T.id then
          { t with status := "success", razorpayPaymentId := some pid,
                   razorpaySignature := some sig } else t)).find?
        (fun t => t.razorpayOrderId == oid && t.userId == u)
        = some { T with status := "success", razorpayPaymentId := some pid,
                        razorpaySignature := some sig } := by
      rw [find?_map_eq _ _ (fun t => by
          by_cases hc : (t.id == T.id) = true <;> simp [hc]), hT]
      simp
    simp only [verifyPayment, hsig, hfind]
    simp

/-- C6 witness: the theorem applied to the concrete fixture — user 1 verifies
gateway order `ord1` with a valid signature; the booking confirms, the
balance drops from 10 to 5, and the repeated call is rejected leaving the
state unchanged. -/
theorem c6_witness :
    verifySignature hmacFix "ord1" "pay1" "mac" = true
    ∧ (0 : ℚ) < txnFix.details.loyaltyPointsUsed
    ∧ (∃ r, (verifyPayment dbC6 hmacFix 1 "ord1" "pay1" "mac").1 = .ok r)
    ∧ verifyPayment ((verifyPayment dbC6 hmacFix 1 "ord1" "pay1" "mac").2)
        hmacFix 1 "ord1" "pay1" "mac"
        = (.error .alreadyVerified, (verifyPayment dbC6 hmacFix 1 "ord1" "pay1" "mac").2) :=
  ⟨by decide, by norm_num [txnFix],
   (c6_exactly_once dbC6 hmacFix 1 "ord1" "pay1" "mac" txnFix bookingFix
      { id := 1, loyaltyPoints := 10 } (by decide) rfl rfl rfl rfl
      (by norm_num [txnFix])).1,
   (c6_exactly_once dbC6 hmacFix 1 "ord1" "pay1" "mac" txnFix bookingFix
      { id := 1, loyaltyPoints := 10 } (by decide) rfl rfl rfl rfl
      (by norm_num [txnFix])).2.2.2⟩

/-! ### C7 — invalid signatures -/

/-- C7 (amended): a `verifyPayment` call whose signature differs from the
HMAC of `orderId|paymentId` and does not carry the `test_sig_` testing-bypass
prefix fails: an error is returned, every transaction with that gateway order
id is marked failed, and no booking undergoes any state transition — the
bypass prefix makes the original unconditional claim false (see the
counterexample). -/
theorem c7_invalid_signature (db : DB) (hmac : String → String) (u : Nat)
    (oid pid sig : String)
    (hpre : strStartsWith sig "test_sig_" = false)
    (hne : hmac (oid ++ "|" ++ pid) ≠ sig) :
    (verifyPayment db hmac u oid pid sig).1 = .error .invalidSignature
    ∧ (verifyPayment db hmac u oid pid sig).2.theaterBookings = db.theaterBookings
    ∧ (verifyPayment db hmac u oid pid sig).2.paymentTxns
        = db.paymentTxns.map (fun t =>
            if t.razorpayOrderId == oid then { t with status := "failed" } else t) := by
  have hv : verifySignature hmac oid pid sig = false := by
    unfold verifySignature
    rw [if_neg (by simp [hpre])]
    simp [hne]
  simp only [verifyPayment, hv, markTxnFailedByOrderId]
  simp

/-- C7 witness: the theorem applied to the concrete fixture — a wrong
signature `bad` fails the call, marks the transaction failed and leaves the
pending booking untouched. -/
theorem c7_witness :
    strStartsWith "bad" "test_sig_" = false
    ∧ hmacFix ("ord1" ++ "|" ++ "pay1") ≠ "bad"
    ∧ (verifyPayment dbVerifyFix hmacFix 1 "ord1" "pay1" "bad").1
        = .error .invalidSignature
    ∧ (verifyPayment dbVerifyFix hmacFix 1 "ord1" "pay1" "bad").2.theaterBookings
        = dbVerifyFix.theaterBookings :=
  ⟨by decide, by decide,
   (c7_invalid_signature dbVerifyFix hmacFix 1 "ord1" "pay1" "bad"
      (by decide) (by decide)).1,
   (c7_invalid_signature dbVerifyFix hmacFix 1 "ord1" "pay1" "bad"
      (by decide) (by decide)).2.1⟩

/-- C7 counterexample: the signature `test_sig_1` differs from the HMAC of
`ord1|pay1` yet verification succeeds via the testing bypass — the
transaction flips to success and the booking to confirmed (status 1), not
failed/pending — refuting the claim for every signature that differs from the
HMAC. -/
theorem c7_counterexample :
    ("test_sig_1" ≠ hmacFix ("ord1" ++ "|" ++ "pay1"))
    ∧ (∃ r, (verifyPayment dbVerifyFix hmacFix 1 "ord1" "pay1" "test_sig_1").1 = .ok r)
    ∧ ((verifyPayment dbVerifyFix hmacFix 1 "ord1" "pay1" "test_sig_1").2.theaterBookings.map
        (fun b => (b.id, b.status))) = [(1, 1)]
    ∧ ((verifyPayment dbVerifyFix hmacFix 1 "ord1" "pay1" "test_sig_1").2.paymentTxns.map
        (fun t => (t.id, t.status))) = [(1, "success")] :=
  ⟨by decide, ⟨_, rfl⟩, by decide, by decide⟩

/-! ### C8 — booking numbers collide across the two booking tables -/

/-- An event order never writes to `theater_bookings`. -/
theorem eventCreateOrder_theaterBookings (db : DB) (today : Date)
    (userId eventId : Nat) (items : List (Nat × Nat)) (ul : Bool) :
    (eventCreateOrder db today userId eventId items ul).2.theaterBookings
      = db.theaterBookings := by
  simp only [eventCreateOrder]
  split
  · rfl
  split
  · rfl
  split
  · rfl
  · rfl

/-- A successful event order's booking number is `getNextBookingNumber` of
the unchanged database. -/
theorem eventCreateOrder_bookingNumber (db : DB) (today : Date)
    (userId eventId : Nat) (items : List (Nat × Nat)) (ul : Bool) (n : String)
    (h : okBookingNumber (eventCreateOrder db today userId eventId items ul).1 = some n) :
    n = getNextBookingNumber db today := by
  simp only [eventCreateOrder] at h
  split at h
  · exact absurd h (by simp [okBookingNumber])
  split at h
  · exact absurd h (by simp [okBookingNumber])
  split at h
  · exact absurd h (by simp [okBookingNumber])
  · simp only [okBookingNumber, Option.some.injEq] at h
    exact h.symm

/-- C8: `getNextBookingNumber` is derived solely from the count of
`theater_bookings` rows created today (with no status or soft-delete filter,
so cancelled rows count), and the event `createOrder` uses that same helper
while writing only to `event_bookings`; consequently two successful same-day
event orders receive identical booking numbers. -/
theorem c8_booking_number_collision :
    (∀ (db : DB) (today : Date),
      getNextBookingNumber db today
        = generateBookingNumber today
            ((db.theaterBookings.filter (fun b => b.createdDate == today)).length + 1))
    ∧ (∀ (db : DB) (today : Date) (u1 e1 u2 e2 : Nat) (it1 it2 : List (Nat × Nat))
        (l1 l2 : Bool) (n1 n2 : String),
      okBookingNumber (eventCreateOrder db today u1 e1 it1 l1).1 = some n1 →
      okBookingNumber (eventCreateOrder (eventCreateOrder db today u1 e1 it1 l1).2
          today u2 e2 it2 l2).1 = some n2 →
      n1 = n2) := by
  constructor
  · intro db today
    rfl
  · intro db today u1 e1 u2 e2 it1 it2 l1 l2 n1 n2 h1 h2
    rw [eventCreateOrder_bookingNumber db today u1 e1 it1 l1 n1 h1,
        eventCreateOrder_bookingNumber _ today u2 e2 it2 l2 n2 h2]
    unfold getNextBookingNumber countBookingsToday
    rw [eventCreateOrder_theaterBookings]

/-- C8 witness: two same-day event orders on the fixture database both
succeed and both receive booking number `BK20250115001`. -/
theorem c8_witness :
    okBookingNumber (eventCreateOrder dbC8 ⟨2025, 1, 15⟩ 1 1 [(1, 2)] false).1
      = some "BK20250115001"
    ∧ okBookingNumber (eventCreateOrder
        (eventCreateOrder dbC8 ⟨2025, 1, 15⟩ 1 1 [(1, 2)] false).2
        ⟨2025, 1, 15⟩ 1 1 [(1, 2)] false).1 = some "BK20250115001"
    ∧ ("BK20250115001" : String) = "BK20250115001" :=
  ⟨by decide, by decide,
   c8_booking_number_collision.2 dbC8 ⟨2025, 1, 15⟩ 1 1 1 1 [(1, 2)] [(1, 2)]
     false false "BK20250115001" "BK20250115001" (by decide) (by decide)⟩

/-! ### C9 — unchecked loyalty debit can drive balances negative -/

/-- Full characterization of the event `verifyPayment` success path (same
flow as the theater one against `event_bookings`, with no lock release). -/
theorem eventVerifyPayment_ok_eq (db : DB) (hmac : String → String) (u : Nat)
    (oid pid sig : String) (T : PaymentTxn) (B : EventBooking)
    (hsig : verifySignature hmac oid pid sig = true)
    (hT : db.paymentTxns.find? (fun t => t.razorpayOrderId == oid && t.userId == u) = some T)
    (hTs : T.status = "pending")
    (hB : db.eventBookings.find? (fun b => b.id == T.bookingId) = some B) :
    eventVerifyPayment db hmac u oid pid sig
      = (.ok { bookingId := B.id, bookingNumber := B.booking },
         { db with
           profiles :=
             if decide (0 < T.details.loyaltyPointsUsed) then
               db.profiles.map (fun p =>
                 if p.id == u then
                   { p with loyaltyPoints := p.loyaltyPoints - T.details.loyaltyPointsUsed }
                 else p)
             else db.profiles
           eventBookings := db.eventBookings.map (fun b =>
             if b.id == T.bookingId then
               { b with status := 1
                        paymentInformation :=
                          { razorpayOrderId := oid, razorpayPaymentId := some pid
                            amount := T.amount, paymentStatus := "success"
                            loyaltyPointsUsed := some T.details.loyaltyPointsUsed
                            couponDiscount := none } }
             else b)
           paymentTxns := db.paymentTxns.map (fun t =>
             if t.id == T.id then
               { t with status := "success", razorpayPaymentId := some pid
                        razorpaySignature := some sig }
             else t) }) := by
  have hps : (("pending" : String) == "success") = false := by decide
  simp only [eventVerifyPayment, hsig, hT, hTs, hB, hps, debitLoyalty]
  by_cases hl : decide (0 < T.details.loyaltyPointsUsed) = true
  · simp [hl]
  · simp only [Bool.not_eq_true] at hl
    simp [hl]

/-- C9: on the success path of both the theater and the event
`verifyPayment`, the requester's loyalty balance is decremented by exactly
the snapshot's `loyalty_points_used` with no check against the current
balance, so a balance smaller than the snapshot amount goes negative after
confirmation. -/
theorem c9_unchecked_loyalty_debit
    (dbT : DB) (hmacT : String → String) (uT : Nat) (oT pT sT : String)
    (Tt : PaymentTxn) (Bt : TheaterBooking) (Pt : UserProfile)
    (dbE : DB) (hmacE : String → String) (uE : Nat) (oE pE sE : String)
    (Te : PaymentTxn) (Be : EventBooking) (Pe : UserProfile)
    (hsigT : verifySignature hmacT oT pT sT = true)
    (hTt : dbT.paymentTxns.find? (fun t => t.razorpayOrderId == oT && t.userId == uT) = some Tt)
    (hTts : Tt.status = "pending")
    (hBt : dbT.theaterBookings.find? (fun b => b.id == Tt.bookingId) = some Bt)
    (hPt : dbT.profiles.find? (fun p => p.id == uT) = some Pt)
    (hLt : 0 < Tt.details.loyaltyPointsUsed)
    (hltT : Pt.loyaltyPoints < Tt.details.loyaltyPointsUsed)
    (hsigE : verifySignature hmacE oE pE sE = true)
    (hTe : dbE.paymentTxns.find? (fun t => t.razorpayOrderId == oE && t.userId == uE) = some Te)
    (hTes : Te.status = "pending")
    (hBe : dbE.eventBookings.find? (fun b => b.id == Te.bookingId) = some Be)
    (hPe : dbE.profiles.find? (fun p => p.id == uE) = some Pe)
    (hLe : 0 < Te.details.loyaltyPointsUsed)
    (hltE : Pe.loyaltyPoints < Te.details.loyaltyPointsUsed) :
    ((verifyPayment dbT hmacT uT oT pT sT).2.profiles.find? (fun p => p.id == uT)
        = some { Pt with loyaltyPoints := Pt.loyaltyPoints - Tt.details.loyaltyPointsUsed }
      ∧ Pt.loyaltyPoints - Tt.details.loyaltyPointsUsed < 0)
    ∧ ((eventVerifyPayment dbE hmacE uE oE pE sE).2.profiles.find? (fun p => p.id == uE)
        = some { Pe with loyaltyPoints := Pe.loyaltyPoints - Te.details.loyaltyPointsUsed }
      ∧ Pe.loyaltyPoints - Te.details.loyaltyPointsUsed < 0) := by
  constructor
  · rw [verifyPayment_ok_eq dbT hmacT uT oT pT sT Tt Bt hsigT hTt hTts hBt]
    dsimp only
    have hPid : (Pt.id == uT) = true :=
      @List.find?_some _ (fun p => p.id == uT) Pt dbT.profiles hPt
    refine ⟨?_, by linarith⟩
    rw [if_pos (decide_eq_true hLt)]
    rw [find?_map_eq _ _ (fun p => by
        by_cases hc : (p.id == uT) = true <;> simp [hc]), hPt]
    simp only [Option.map_some']
    rw [if_pos hPid]
  · rw [eventVerifyPayment_ok_eq dbE hmacE uE oE pE sE Te Be hsigE hTe hTes hBe]
    dsimp only
    have hPid : (Pe.id == uE) = true :=
      @List.find?_some _ (fun p => p.id == uE) Pe dbE.profiles hPe
    refine ⟨?_, by linarith⟩
    rw [if_pos (decide_eq_true hLe)]
    rw [find?_map_eq _ _ (fun p => by
        by_cases hc : (p.id == uE) = true <;> simp [hc]), hPe]
    simp only [Option.map_some']
    rw [if_pos hPid]

/-- C9 witness: the theorem applied to the concrete fixtures — a balance of 3
against a snapshot of 5 leaves the stored balance at −2 after both the
theater and the event confirmation. -/
theorem c9_witness :
    ((3 : ℚ) < txnFix.details.loyaltyPointsUsed)
    ∧ (verifyPayment dbC9 hmacFix 1 "ord1" "pay1" "mac").2.profiles.find?
        (fun p => p.id == 1)
        = some { id := 1,
                 loyaltyPoints := (3 : ℚ) - txnFix.details.loyaltyPointsUsed }
    ∧ ((3 : ℚ) - txnFix.details.loyaltyPointsUsed < 0)
    ∧ (eventVerifyPayment dbC9e hmacFix 1 "ord1" "pay1" "mac").2.profiles.find?
        (fun p => p.id == 1)
        = some { id := 1,
                 loyaltyPoints := (3 : ℚ) - txnFix.details.loyaltyPointsUsed } := by
  have h := c9_unchecked_loyalty_debit dbC9 hmacFix 1 "ord1" "pay1" "mac"
    txnFix bookingFix { id := 1, loyaltyPoints := 3 }
    dbC9e hmacFix 1 "ord1" "pay1" "mac"
    txnFix eventBookingFix { id := 1, loyaltyPoints := 3 }
    (by decide) rfl rfl rfl rfl (by norm_num [txnFix]) (by norm_num [txnFix])
    (by decide) rfl rfl rfl rfl (by norm_num [txnFix]) (by norm_num [txnFix])
  exact ⟨by norm_num [txnFix], h.1.1, h.1.2, h.2.1⟩

/-! ### C10 — cross-user transaction failure on the invalid-signature path -/

/-- C10: the invalid-signature update filters only on the gateway order id
with no user scope — any authenticated caller submitting another user's
gateway order reference with a bad signature drives that user's transaction
to status `failed`, in both the theater and the event `verifyPayment`. -/
theorem c10_cross_user_failed (db : DB) (hmac : String → String) (uB : Nat)
    (oid pid sig : String) (T : PaymentTxn)
    (hpre : strStartsWith sig "test_sig_" = false)
    (hne : hmac (oid ++ "|" ++ pid) ≠ sig)
    (hT : T ∈ db.paymentTxns) (hoid : T.razorpayOrderId = oid)
    (_hu : T.userId ≠ uB) :
    { T with status := "failed" } ∈ (verifyPayment db hmac uB oid pid sig).2.paymentTxns
    ∧ { T with status := "failed" }
        ∈ (eventVerifyPayment db hmac uB oid pid sig).2.paymentTxns := by
  have hv : verifySignature hmac oid pid sig = false := by
    unfold verifySignature
    rw [if_neg (by simp [hpre])]
    simp [hne]
  have hmem : ({ T with status := "failed" } : PaymentTxn) ∈
      markTxnFailedByOrderId db.paymentTxns oid := by
    unfold markTxnFailedByOrderId
    have h2 := List.mem_map_of_mem (fun t =>
      if t.razorpayOrderId == oid then { t with status := "failed" } else t) hT
    dsimp only at h2
    rwa [if_pos (by simp [hoid])] at h2
  constructor
  · simp only [verifyPayment, hv]
    simpa using hmem
  · simp only [eventVerifyPayment, hv]
    simpa using hmem

/-- C10 witness: the theorem applied to the concrete fixture — caller 2
submits user 1's gateway order `ord1` with signature `bad`, and user 1's
transaction is marked failed in both controllers. -/
theorem c10_witness :
    (txnFix.userId ≠ 2)
    ∧ { txnFix with status := "failed" }
        ∈ (verifyPayment dbVerifyFix hmacFix 2 "ord1" "pay1" "bad").2.paymentTxns
    ∧ { txnFix with status := "failed" }
        ∈ (eventVerifyPayment dbVerifyFix hmacFix 2 "ord1" "pay1" "bad").2.paymentTxns := by
  have h := c10_cross_user_failed dbVerifyFix hmacFix 2 "ord1" "pay1" "bad" txnFix
    (by decide) (by decide) (by decide) rfl (by decide)
  exact ⟨by decide, h.1, h.2⟩

/-- C5 counterexample: a flat ₹200 coupon on a ₹118 subtotal with no loyalty
redemption yields a negative total (−96.76) — refuting the claim that the
resulting total is never negative for every combination of inputs. -/
theorem c5_counterexample :
    (computePricing 100 0 (some flatCoupon200) false 0).couponDiscount = 200
    ∧ (computePricing 100 0 (some flatCoupon200) false 0).subtotal = 118
    ∧ round2 (computePricing 100 0 (some flatCoupon200) false 0).totalAmount < 0 := by
  have hcd : (computePricing 100 0 (some flatCoupon200) false 0).couponDiscount = 200 := by
    simp +decide [computePricing, couponDiscountOf, flatCoupon200]
    norm_num
  have htot : (computePricing 100 0 (some flatCoupon200) false 0).totalAmount
      = -9676 / 100 := by
    simp +decide [computePricing, couponDiscountOf, flatCoupon200]
    norm_num
  refine ⟨hcd, by norm_num [computePricing], ?_⟩
  rw [htot]
  have hr : round ((-9676 : ℚ) / 100 * 100) = -9676 := by
    rw [show ((-9676 : ℚ) / 100 * 100) = ((-9676 : ℤ) : ℚ) by norm_num, round_intCast]
  unfold round2
  rw [hr]
  norm_num

end NammaShow
